import Mathlib

/-!
Verification of the Huovilainen Moog ladder filter kernel
(`huovilainenFilterKernel.c`).

The kernel is a single C translation unit whose state lives in file-scope
variables.  We embed that state as the structure `KernelState` below, with
every C `float`/`double` idealised as a rational number `ℚ` (float rounding
is not modelled).  The two transcendental maps used by the kernel —
`enhanced_tanh` (built on `tanh`) and the cutoff→`tune` map (built on
`exp`) — are not rational-valued, so the state-transition functions are
parameterised over them (`sat : ℚ → ℚ` for the saturator, `tf : ℚ → ℚ` for
the map from the clamped normalised cutoff `fc` to `tune`).  This keeps the
whole state machine computable; the exact real-valued saturator
`enhanced_tanh` is defined separately over `ℝ` and its properties are
proved directly.
-/

namespace Huov

/-- C macro `#define WEBEAUDIO_FRAME_SIZE 128` — the fixed block length. -/
def FRAME_SIZE : ℕ := 128

/-- Constant `static double thermal = 0.000025;`. -/
def thermal : ℚ := 1/40000

/-- Constant `static const float dcBlockCoeff = 0.995f;`. -/
def dcBlockCoeff : ℚ := 199/200

/-- Constant `static const float SAMPLE_RATE = 44100.0f;`. -/
def SAMPLE_RATE : ℚ := 44100

/-- Constant `static const float PI = 3.14159265359f;` — a literal rational
constant in the C source (not the real number π). -/
def cPI : ℚ := 314159265359/100000000000

/-- The file-scope mutable state of the kernel: the four ladder stages
`stage[4]`, the saturator caches `stageTanh[3]`, the delay line `delay[6]`,
the derived coefficients, the control parameters, the DC-blocker state and
the envelope state.  Field names follow the C globals. -/
structure KernelState where
  stage0 : ℚ
  stage1 : ℚ
  stage2 : ℚ
  stage3 : ℚ
  stageTanh0 : ℚ
  stageTanh1 : ℚ
  stageTanh2 : ℚ
  delay0 : ℚ
  delay1 : ℚ
  delay2 : ℚ
  delay3 : ℚ
  delay4 : ℚ
  delay5 : ℚ
  tune : ℚ
  acr : ℚ
  resQuad : ℚ
  cutoff : ℚ
  resonance : ℚ
  targetCutoff : ℚ
  targetResonance : ℚ
  cutoffSmoothing : ℚ
  resonanceSmoothing : ℚ
  dcBlockInput : ℚ
  dcBlockOutput : ℚ
  manualCutoff : ℚ
  envelopeCutoff : ℚ
  envelopeActive : Bool
  envelopeStartCutoff : ℚ
  envelopeTargetCutoff : ℚ
  envelopeStartTime : ℚ
  envelopeDuration : ℚ
  envelopeDecayTime : ℚ
  envelopeSustainLevel : ℚ
  envelopePhase : ℕ
  currentTime : ℚ

/-- The fresh-instance state: the C static initialisers (uninitialised
statics such as `tune`, `acr`, `resQuad` are zero in C). -/
def initState : KernelState where
  stage0 := 0
  stage1 := 0
  stage2 := 0
  stage3 := 0
  stageTanh0 := 0
  stageTanh1 := 0
  stageTanh2 := 0
  delay0 := 0
  delay1 := 0
  delay2 := 0
  delay3 := 0
  delay4 := 0
  delay5 := 0
  tune := 0
  acr := 0
  resQuad := 0
  cutoff := 1000
  resonance := 1/10
  targetCutoff := 1000
  targetResonance := 1/10
  cutoffSmoothing := 1/10
  resonanceSmoothing := 1/10
  dcBlockInput := 0
  dcBlockOutput := 0
  manualCutoff := 1000
  envelopeCutoff := 1000
  envelopeActive := false
  envelopeStartCutoff := 1000
  envelopeTargetCutoff := 1000
  envelopeStartTime := 0
  envelopeDuration := 0
  envelopeDecayTime := 1/2
  envelopeSustainLevel := 1/2
  envelopePhase := 0
  currentTime := 0

/-- Lines 171–175: `fc = cutoff / SAMPLE_RATE; fc = fmin(fc, 0.45);` — the
normalised cutoff actually used by `updateFilterCoefficients`. -/
def clampedFc (c : ℚ) : ℚ := min (c / SAMPLE_RATE) (45/100)

/-- Line 181: `fcr = 1.8730*fc3 + 0.4955*fc2 - 0.6490*fc + 0.9988`. -/
def fcrPoly (fc : ℚ) : ℚ :=
  18730/10000 * fc^3 + 4955/10000 * fc^2 - 6490/10000 * fc + 9988/10000

/-- Line 182: `acr = -3.9364*fc2 + 1.8409*fc + 0.9968`. -/
def acrPoly (fc : ℚ) : ℚ :=
  -39364/10000 * fc^2 + 18409/10000 * fc + 9968/10000

/-- Function `updateFilterCoefficients()` (lines 170–187).  The assignment
`tune = (1.0 - exp(-((2*PI) * f * fcr))) / thermal` (with `f = fc * 0.5`)
is the composite of `exp` with rational operations; that map fc ↦ tune is
abstracted as the parameter `tf` (its exact real-valued form is `tuneMap`
below). -/
def updateFilterCoefficients (tf : ℚ → ℚ) (s : KernelState) : KernelState :=
  let fc := clampedFc s.cutoff
  { s with acr := acrPoly fc
           tune := tf fc
           resQuad := 4 * s.resonance * acrPoly fc }

/-- Function `setCutoff(float c)` (lines 77–83). -/
def setCutoff (tf : ℚ → ℚ) (c : ℚ) (s : KernelState) : KernelState :=
  let s1 := { s with manualCutoff := c }
  if s1.envelopeActive then s1
  else updateFilterCoefficients tf { s1 with targetCutoff := c }

/-- Function `setResonance(float r)` (lines 86–89). -/
def setResonance (tf : ℚ → ℚ) (r : ℚ) (s : KernelState) : KernelState :=
  updateFilterCoefficients tf { s with targetResonance := r }

/-- Function `setEnvelopeActive(int active)` (lines 92–99). -/
def setEnvelopeActive (tf : ℚ → ℚ) (active : Bool) (s : KernelState) :
    KernelState :=
  let s1 := { s with envelopeActive := active }
  if active then s1
  else
    updateFilterCoefficients tf
      { s1 with targetCutoff := s1.manualCutoff, envelopePhase := 0 }

/-- Function `setEnvelopeDecayTime(float decayTime)` (lines 111–113). -/
def setEnvelopeDecayTime (decayTime : ℚ) (s : KernelState) : KernelState :=
  { s with envelopeDecayTime := decayTime }

/-- Function `setEnvelopeSustainLevel(float sustainLevel)` (lines 116–118). -/
def setEnvelopeSustainLevel (sustainLevel : ℚ) (s : KernelState) :
    KernelState :=
  { s with envelopeSustainLevel := sustainLevel }

/-- Function `setEnvelopeAttack(float startCutoff, float peakCutoff, float
attackTime)` (lines 121–128). -/
def setEnvelopeAttack (startCutoff peakCutoff attackTime : ℚ)
    (s : KernelState) : KernelState :=
  { s with envelopeStartCutoff := startCutoff
           envelopeTargetCutoff := peakCutoff * 2
           envelopeStartTime := s.currentTime
           envelopeDuration := attackTime
           envelopePhase := 1
           envelopeActive := true }

/-- Function `setEnvelopeRelease(float targetCutoff, float releaseTime)`
(lines 131–137).  Note the parameter `targetCutoff` shadows the global of
the same name in C: the global target cutoff is NOT written here. -/
def setEnvelopeRelease (targetCutoff releaseTime : ℚ) (s : KernelState) :
    KernelState :=
  { s with envelopeStartCutoff := s.envelopeCutoff
           envelopeTargetCutoff := targetCutoff
           envelopeStartTime := s.currentTime
           envelopeDuration := releaseTime
           envelopePhase := 0 }

/-- Lines 164–166 of `updateEnvelope`: the linear interpolation, the write
to the global target cutoff, and the coefficient recomputation. -/
def applyEnvelopeCutoff (tf : ℚ → ℚ) (progress : ℚ) (s : KernelState) :
    KernelState :=
  let ec := s.envelopeStartCutoff +
    (s.envelopeTargetCutoff - s.envelopeStartCutoff) * progress
  updateFilterCoefficients tf { s with envelopeCutoff := ec, targetCutoff := ec }

/-- Function `updateEnvelope(float time)` (lines 140–167). The write
`currentTime = time` is
executed before the `envelopePhase == 0` early return; the progress
division `elapsed / envelopeDuration` is performed with no guard against a
zero duration (in `ℚ`, division by zero yields 0; in C it would yield an
IEEE infinity or NaN). -/
def updateEnvelope (tf : ℚ → ℚ) (time : ℚ) (s0 : KernelState) : KernelState :=
  let s := { s0 with currentTime := time }
  if s.envelopePhase = 0 then s
  else
    let elapsed := time - s.envelopeStartTime
    let progress := elapsed / s.envelopeDuration
    if 1 ≤ progress then
      if s.envelopePhase = 1 then
        let start := s.envelopeTargetCutoff
        let sustainCutoff :=
          start + (s.manualCutoff - start) * (1 - s.envelopeSustainLevel)
        applyEnvelopeCutoff tf 1
          { s with envelopeStartCutoff := start
                   envelopeTargetCutoff := sustainCutoff
                   envelopeStartTime := time
                   envelopeDuration := s.envelopeDecayTime
                   envelopePhase := 2 }
      else if s.envelopePhase = 2 then
        applyEnvelopeCutoff tf 1 { s with envelopePhase := 3 }
      else if s.envelopePhase = 3 then s
      else applyEnvelopeCutoff tf 1 s
    else applyEnvelopeCutoff tf progress s

/-- Function `init()` (lines 190–207): memset of `stage`, `delay`, `stageTanh`, then
`setCutoff(1000)`, `setResonance(0.1)`, then the direct field writes. -/
def init (tf : ℚ → ℚ) (s : KernelState) : KernelState :=
  let s1 := { s with stage0 := 0, stage1 := 0, stage2 := 0, stage3 := 0
                     delay0 := 0, delay1 := 0, delay2 := 0
                     delay3 := 0, delay4 := 0, delay5 := 0
                     stageTanh0 := 0, stageTanh1 := 0, stageTanh2 := 0 }
  let s2 := setCutoff tf 1000 s1
  let s3 := setResonance tf (1/10) s2
  { s3 with manualCutoff := 1000
            envelopeCutoff := 1000
            envelopeActive := false
            envelopePhase := 0
            currentTime := 0
            envelopeSustainLevel := 1/2
            cutoffSmoothing := 1/10
            resonanceSmoothing := 1/10 }

/-- Function `smoothParameter(float current, float target, float smoothing)`
(lines 210–212). -/
def smoothParameter (current target smoothing : ℚ) : ℚ :=
  current + (target - current) * smoothing

/-- One oversampling sub-step of the ladder (the body of the `j` loop,
lines 264–288), at a fixed DC-blocked input sample.  `sat` abstracts
`enhanced_tanh`.  The C sequencing is kept: the stage-1 update reads the
freshly overwritten `stageTanh[0]`, likewise stages 2 and 3; stage 3
recomputes `enhanced_tanh(delay[3] * thermal)` from its previous delay
value instead of using a cache; `delay[5]` reads the old `delay[4]` before
`delay[4]` is overwritten. -/
def ladderStep (sat : ℚ → ℚ) (dcBlockedInput : ℚ) (s : KernelState) :
    KernelState :=
  let input_sample := dcBlockedInput - s.resQuad * s.delay5
  let newStage0 := s.delay0 + s.tune * (sat (input_sample * thermal) - s.stageTanh0)
  let newStageTanh0 := sat (newStage0 * thermal)
  let newStage1 := s.delay1 + s.tune * (newStageTanh0 - s.stageTanh1)
  let newStageTanh1 := sat (newStage1 * thermal)
  let newStage2 := s.delay2 + s.tune * (newStageTanh1 - s.stageTanh2)
  let newStageTanh2 := sat (newStage2 * thermal)
  let newStage3 := s.delay3 + s.tune * (newStageTanh2 - sat (s.delay3 * thermal))
  { s with stage0 := newStage0, stage1 := newStage1
           stage2 := newStage2, stage3 := newStage3
           stageTanh0 := newStageTanh0, stageTanh1 := newStageTanh1
           stageTanh2 := newStageTanh2
           delay0 := newStage0, delay1 := newStage1
           delay2 := newStage2, delay3 := newStage3
           delay5 := (newStage3 + s.delay4) * (1/2)
           delay4 := newStage3 }

/-- The body of the `i` loop of `filter()` (lines 257–290): DC-block the
raw sample, run the two oversampling sub-steps on the same DC-blocked
value, and emit `delay[5]` as the output sample. -/
def processSample (sat : ℚ → ℚ) (x : ℚ) (s : KernelState) :
    KernelState × ℚ :=
  let dcBlockedInput := x - s.dcBlockInput + dcBlockCoeff * s.dcBlockOutput
  let s1 := { s with dcBlockInput := x, dcBlockOutput := dcBlockedInput }
  let s2 := ladderStep sat dcBlockedInput (ladderStep sat dcBlockedInput s1)
  (s2, s2.delay5)

/-- The sample loop of `filter()` over an input block. -/
def processSamples (sat : ℚ → ℚ) : List ℚ → KernelState → KernelState × List ℚ
  | [], s => (s, [])
  | x :: xs, s =>
    let p := processSample sat x s
    let q := processSamples sat xs p.1
    (q.1, p.2 :: q.2)

/-- Function `filter()` (lines 247–292): per-block parameter smoothing, coefficient
recomputation, then the per-sample loop.  The C version reads
`inputBuffer[0..127]` and writes `outputBuffer[0..127]`; we pass the block
as a list (of length `FRAME_SIZE` in the deployed configuration). -/
def filter (tf sat : ℚ → ℚ) (input : List ℚ) (s : KernelState) :
    KernelState × List ℚ :=
  let s1 := { s with
    cutoff := smoothParameter s.cutoff s.targetCutoff s.cutoffSmoothing
    resonance := smoothParameter s.resonance s.targetResonance s.resonanceSmoothing }
  let s2 := updateFilterCoefficients tf s1
  processSamples sat input s2

/-- A trivial stand-in for the transcendental fc ↦ tune map, used to
instantiate the parametric model at concrete states. -/
def tfZero : ℚ → ℚ := fun _ => 0

/-! ### Branch characterisations of `updateEnvelope` -/

/-- Line 143: with the idle/release phase tag 0, `updateEnvelope` returns
right after recording the time. -/
theorem updateEnvelope_phase0 (tf : ℚ → ℚ) (t : ℚ) (s : KernelState)
    (h : s.envelopePhase = 0) :
    updateEnvelope tf t s = { s with currentTime := t } := by
  simp [updateEnvelope, h]

/-- Lines 145–147 and 164–166: with a non-idle phase and progress `< 1`,
`updateEnvelope` interpolates at the raw progress value. -/
theorem updateEnvelope_interp (tf : ℚ → ℚ) (t : ℚ) (s : KernelState)
    (h0 : s.envelopePhase ≠ 0)
    (hlt : (t - s.envelopeStartTime) / s.envelopeDuration < 1) :
    updateEnvelope tf t s =
      applyEnvelopeCutoff tf ((t - s.envelopeStartTime) / s.envelopeDuration)
        { s with currentTime := t } := by
  simp [updateEnvelope, h0, not_le.2 hlt]

/-- Lines 149–155: attack completion transitions to the decay phase and
interpolates at progress clamped to 1. -/
theorem updateEnvelope_attackDone (tf : ℚ → ℚ) (t : ℚ) (s : KernelState)
    (h1 : s.envelopePhase = 1)
    (hge : 1 ≤ (t - s.envelopeStartTime) / s.envelopeDuration) :
    updateEnvelope tf t s =
      applyEnvelopeCutoff tf 1
        { s with currentTime := t
                 envelopeStartCutoff := s.envelopeTargetCutoff
                 envelopeTargetCutoff := s.envelopeTargetCutoff +
                   (s.manualCutoff - s.envelopeTargetCutoff) *
                     (1 - s.envelopeSustainLevel)
                 envelopeStartTime := t
                 envelopeDuration := s.envelopeDecayTime
                 envelopePhase := 2 } := by
  simp [updateEnvelope, h1, hge]

/-- Lines 156–157: decay completion transitions to the held phase. -/
theorem updateEnvelope_decayDone (tf : ℚ → ℚ) (t : ℚ) (s : KernelState)
    (h2 : s.envelopePhase = 2)
    (hge : 1 ≤ (t - s.envelopeStartTime) / s.envelopeDuration) :
    updateEnvelope tf t s =
      applyEnvelopeCutoff tf 1 { s with currentTime := t, envelopePhase := 3 } := by
  simp [updateEnvelope, h2, hge]

/-- Lines 158–159: once held with progress `≥ 1`, `updateEnvelope` only
records the time. -/
theorem updateEnvelope_held (tf : ℚ → ℚ) (t : ℚ) (s : KernelState)
    (h3 : s.envelopePhase = 3)
    (hge : 1 ≤ (t - s.envelopeStartTime) / s.envelopeDuration) :
    updateEnvelope tf t s = { s with currentTime := t } := by
  simp [updateEnvelope, h3, hge]

/-! ### C1 — release interpolation -/

/-- C1, counterexample.  The claim says that after
`triggerRelease(targetCutoff, releaseTime)` at time `t0`, an
`advance(t)` with `t0 ≤ t < t0 + releaseTime` updates the envelope cutoff
to `start + (targetCutoff - start)·((t - t0)/releaseTime)`.  Concretely,
from the fresh state (envelope cutoff 1000, time 0), after
`setEnvelopeRelease 500 1` and `updateEnvelope` at `t = 1/2`, the claim
predicts cutoff `1000 + (500 - 1000)·((1/2 - 0)/1) = 750`; the code leaves
it at 1000 because `setEnvelopeRelease` sets `envelopePhase = 0` and
`updateEnvelope` returns immediately on phase 0. -/
theorem release_interpolates_cex :
    (updateEnvelope tfZero (1/2) (setEnvelopeRelease 500 1 initState)).envelopeCutoff ≠
      1000 + (500 - 1000) * (((1:ℚ)/2 - 0) / 1) := by
  norm_num [updateEnvelope, setEnvelopeRelease, initState]

/-- C1, amended: `setEnvelopeRelease(targetCutoff, releaseTime)` records
start = current envelope cutoff, target, phase start = current time,
duration = releaseTime and phase = 0, but because `updateEnvelope` treats
phase 0 as idle and returns before computing any progress, every
subsequent `updateEnvelope t` call is inert apart from recording `t`: the
envelope cutoff is never interpolated during a release. -/
theorem release_is_inert (tf : ℚ → ℚ) (c rt t : ℚ) (s : KernelState) :
    (setEnvelopeRelease c rt s).envelopeStartCutoff = s.envelopeCutoff ∧
    (setEnvelopeRelease c rt s).envelopeTargetCutoff = c ∧
    (setEnvelopeRelease c rt s).envelopeStartTime = s.currentTime ∧
    (setEnvelopeRelease c rt s).envelopeDuration = rt ∧
    (setEnvelopeRelease c rt s).envelopePhase = 0 ∧
    updateEnvelope tf t (setEnvelopeRelease c rt s) =
      { setEnvelopeRelease c rt s with currentTime := t } := by
  refine ⟨rfl, rfl, rfl, rfl, rfl, ?_⟩
  exact updateEnvelope_phase0 tf t _ rfl

/-! ### C8 — idle advance as a no-op -/

/-- C8, counterexample.  The claim says an idle `advanceEnvelope(t)` leaves
every field unchanged, including any internal time record.  From the fresh
idle state, `updateEnvelope 5` changes `currentTime` from 0 to 5. -/
theorem idle_advance_noop_cex :
    (updateEnvelope tfZero 5 initState).currentTime ≠ initState.currentTime := by
  norm_num [updateEnvelope, initState]

/-- C8, amended: when the phase is the idle tag 0, `updateEnvelope t`
writes only the internal time record `currentTime` (line 141 runs before
the early return) and leaves every other field unchanged; the write is
observable, e.g. a subsequent `setEnvelopeAttack` stamps its phase start
with the recorded time. -/
theorem idle_advance_only_records_time (tf : ℚ → ℚ) (t a p d : ℚ)
    (s : KernelState) (h : s.envelopePhase = 0) :
    updateEnvelope tf t s = { s with currentTime := t } ∧
    (setEnvelopeAttack a p d (updateEnvelope tf t s)).envelopeStartTime = t := by
  refine ⟨updateEnvelope_phase0 tf t s h, ?_⟩
  rw [updateEnvelope_phase0 tf t s h]
  rfl

theorem idle_advance_only_records_time_witness :
    initState.envelopePhase = 0 ∧
    (updateEnvelope tfZero 5 initState = { initState with currentTime := 5 } ∧
      (setEnvelopeAttack 200 2000 1 (updateEnvelope tfZero 5 initState)).envelopeStartTime = 5) :=
  ⟨rfl, idle_advance_only_records_time tfZero 5 200 2000 1 initState rfl⟩

/-! ### C3 — attack/decay/held lifecycle -/


/-- The observable behaviour asserted by the attack→decay→held lifecycle,
for an attack triggered by `setEnvelopeAttack a p d` from state `s` and
advanced at times `t1 ≤ t2` (inside the attack window), `t3` (at/after the
attack end), `t4` (at/after the decay end) and `t5 ≥ t4`. -/
def AttackLifecycleSpec (tf : ℚ → ℚ) (s : KernelState)
    (a p d t1 t2 t3 t4 t5 : ℚ) : Prop :=
  (setEnvelopeAttack a p d s).envelopeTargetCutoff = 2 * p ∧
  (setEnvelopeAttack a p d s).envelopePhase = 1 ∧
  (updateEnvelope tf t1 (setEnvelopeAttack a p d s)).envelopePhase = 1 ∧
  (updateEnvelope tf t1 (setEnvelopeAttack a p d s)).envelopeCutoff ≤
    (updateEnvelope tf t2 (setEnvelopeAttack a p d s)).envelopeCutoff ∧
  a ≤ (updateEnvelope tf t1 (setEnvelopeAttack a p d s)).envelopeCutoff ∧
  (updateEnvelope tf t2 (setEnvelopeAttack a p d s)).envelopeCutoff ≤ 2 * p ∧
  (updateEnvelope tf t3 (setEnvelopeAttack a p d s)).envelopePhase = 2 ∧
  (updateEnvelope tf t3 (setEnvelopeAttack a p d s)).envelopeStartCutoff = 2 * p ∧
  (updateEnvelope tf t3 (setEnvelopeAttack a p d s)).envelopeTargetCutoff =
    2 * p + (s.manualCutoff - 2 * p) * (1 - s.envelopeSustainLevel) ∧
  (updateEnvelope tf t3 (setEnvelopeAttack a p d s)).envelopeDuration =
    s.envelopeDecayTime ∧
  (updateEnvelope tf t3 (setEnvelopeAttack a p d s)).envelopeStartTime = t3 ∧
  (updateEnvelope tf t4
    (updateEnvelope tf t3 (setEnvelopeAttack a p d s))).envelopePhase = 3 ∧
  updateEnvelope tf t5
      (updateEnvelope tf t4 (updateEnvelope tf t3 (setEnvelopeAttack a p d s))) =
    { updateEnvelope tf t4 (updateEnvelope tf t3 (setEnvelopeAttack a p d s)) with
        currentTime := t5 }

/-- C3: `setEnvelopeAttack(startCutoff, peakCutoff, attackTime)` sets the
attack target to twice the peak cutoff and the phase to Attack (1); for
advance times inside the attack window the envelope cutoff rises
monotonically from `startCutoff` toward `2·peakCutoff` while remaining in
that range; exactly when progress reaches 1 the phase transitions to Decay
(2) with new start = previous target and new target =
`start + (manualCutoff - start)·(1 - sustainLevel)` over the configured
decay time; when decay progress reaches 1 the phase becomes Held (3) and a
further advance leaves every field but the recorded time unchanged. -/
theorem attack_decay_held_lifecycle
    (tf : ℚ → ℚ) (s : KernelState) (a p d t1 t2 t3 t4 t5 : ℚ)
    (hd : 0 < d) (hap : a ≤ 2 * p) (hdec : 0 < s.envelopeDecayTime)
    (h01 : s.currentTime ≤ t1) (h12 : t1 ≤ t2) (h2lt : t2 < s.currentTime + d)
    (h3 : s.currentTime + d ≤ t3) (h4 : t3 + s.envelopeDecayTime ≤ t4)
    (h45 : t4 ≤ t5) :
    AttackLifecycleSpec tf s a p d t1 t2 t3 t4 t5 := by
  have hq1lt : (t1 - s.currentTime) / d < 1 := (div_lt_one hd).2 (by linarith)
  have hq2lt : (t2 - s.currentTime) / d < 1 := (div_lt_one hd).2 (by linarith)
  have e1 : updateEnvelope tf t1 (setEnvelopeAttack a p d s) =
      applyEnvelopeCutoff tf ((t1 - s.currentTime) / d)
        { setEnvelopeAttack a p d s with currentTime := t1 } :=
    updateEnvelope_interp tf t1 _ one_ne_zero hq1lt
  have e2 : updateEnvelope tf t2 (setEnvelopeAttack a p d s) =
      applyEnvelopeCutoff tf ((t2 - s.currentTime) / d)
        { setEnvelopeAttack a p d s with currentTime := t2 } :=
    updateEnvelope_interp tf t2 _ one_ne_zero hq2lt
  have v1 : (updateEnvelope tf t1 (setEnvelopeAttack a p d s)).envelopeCutoff =
      a + (p * 2 - a) * ((t1 - s.currentTime) / d) := by rw [e1]; rfl
  have v2 : (updateEnvelope tf t2 (setEnvelopeAttack a p d s)).envelopeCutoff =
      a + (p * 2 - a) * ((t2 - s.currentTime) / d) := by rw [e2]; rfl
  have hq12 : (t1 - s.currentTime) / d ≤ (t2 - s.currentTime) / d :=
    (div_le_div_iff_of_pos_right hd).2 (by linarith)
  have hq1nn : 0 ≤ (t1 - s.currentTime) / d := div_nonneg (by linarith) hd.le
  have hpa : (0:ℚ) ≤ p * 2 - a := by linarith
  have hq3 : 1 ≤ (t3 - s.currentTime) / d := (one_le_div hd).2 (by linarith)
  have e3 : updateEnvelope tf t3 (setEnvelopeAttack a p d s) =
      applyEnvelopeCutoff tf 1
        { setEnvelopeAttack a p d s with
            currentTime := t3
            envelopeStartCutoff := p * 2
            envelopeTargetCutoff :=
              p * 2 + (s.manualCutoff - p * 2) * (1 - s.envelopeSustainLevel)
            envelopeStartTime := t3
            envelopeDuration := s.envelopeDecayTime
            envelopePhase := 2 } :=
    updateEnvelope_attackDone tf t3 _ rfl hq3
  have ph2 : (updateEnvelope tf t3 (setEnvelopeAttack a p d s)).envelopePhase = 2 := by
    rw [e3]; rfl
  have hst3 : (updateEnvelope tf t3 (setEnvelopeAttack a p d s)).envelopeStartTime = t3 := by
    rw [e3]; rfl
  have hdu3 : (updateEnvelope tf t3 (setEnvelopeAttack a p d s)).envelopeDuration =
      s.envelopeDecayTime := by rw [e3]; rfl
  have hq4 : 1 ≤ (t4 - (updateEnvelope tf t3 (setEnvelopeAttack a p d s)).envelopeStartTime) /
      (updateEnvelope tf t3 (setEnvelopeAttack a p d s)).envelopeDuration := by
    rw [hst3, hdu3]; exact (one_le_div hdec).2 (by linarith)
  have e4 : updateEnvelope tf t4 (updateEnvelope tf t3 (setEnvelopeAttack a p d s)) =
      applyEnvelopeCutoff tf 1
        { updateEnvelope tf t3 (setEnvelopeAttack a p d s) with
            currentTime := t4, envelopePhase := 3 } :=
    updateEnvelope_decayDone tf t4 _ ph2 hq4
  have ph3 : (updateEnvelope tf t4
      (updateEnvelope tf t3 (setEnvelopeAttack a p d s))).envelopePhase = 3 := by
    rw [e4]; rfl
  have hst4 : (updateEnvelope tf t4
      (updateEnvelope tf t3 (setEnvelopeAttack a p d s))).envelopeStartTime = t3 := by
    rw [e4]; exact hst3
  have hdu4 : (updateEnvelope tf t4
      (updateEnvelope tf t3 (setEnvelopeAttack a p d s))).envelopeDuration =
      s.envelopeDecayTime := by rw [e4]; exact hdu3
  have hq5 : 1 ≤ (t5 - (updateEnvelope tf t4
      (updateEnvelope tf t3 (setEnvelopeAttack a p d s))).envelopeStartTime) /
      (updateEnvelope tf t4
        (updateEnvelope tf t3 (setEnvelopeAttack a p d s))).envelopeDuration := by
    rw [hst4, hdu4]; exact (one_le_div hdec).2 (by linarith)
  refine ⟨by simp [setEnvelopeAttack, mul_comm], rfl, by rw [e1]; rfl, ?_, ?_, ?_,
    ph2, ?_, ?_, hdu3, hst3, ph3, updateEnvelope_held tf t5 _ ph3 hq5⟩
  · rw [v1, v2]
    have := mul_le_mul_of_nonneg_left hq12 hpa
    linarith
  · rw [v1]
    have := mul_nonneg hpa hq1nn
    linarith
  · rw [v2]
    have := mul_le_mul_of_nonneg_left hq2lt.le hpa
    linarith
  · rw [e3]; show p * 2 = 2 * p; ring
  · rw [e3]
    show p * 2 + (s.manualCutoff - p * 2) * (1 - s.envelopeSustainLevel) =
      2 * p + (s.manualCutoff - 2 * p) * (1 - s.envelopeSustainLevel)
    ring

/-- Witness for C3 at `triggerAttack(200, 2000, 0.1)` from the fresh state,
advanced at times 0, 1/20, 1/10, 7/10 and 1. -/
theorem attack_decay_held_lifecycle_witness :
    ((0:ℚ) < 1/10 ∧ (200:ℚ) ≤ 2 * 2000 ∧ 0 < initState.envelopeDecayTime ∧
      initState.currentTime ≤ 0 ∧ (0:ℚ) ≤ 1/20 ∧
      (1/20:ℚ) < initState.currentTime + 1/10 ∧
      initState.currentTime + 1/10 ≤ 1/10 ∧
      (1/10:ℚ) + initState.envelopeDecayTime ≤ 7/10 ∧ (7/10:ℚ) ≤ 1) ∧
    AttackLifecycleSpec tfZero initState 200 2000 (1/10) 0 (1/20) (1/10) (7/10) 1 :=
  ⟨⟨by norm_num, by norm_num, by norm_num [initState], by norm_num [initState],
    by norm_num, by norm_num [initState], by norm_num [initState],
    by norm_num [initState], by norm_num⟩,
   attack_decay_held_lifecycle tfZero initState 200 2000 (1/10) 0 (1/20) (1/10)
    (7/10) 1 (by norm_num) (by norm_num) (by norm_num [initState])
    (by norm_num [initState]) (by norm_num) (by norm_num [initState])
    (by norm_num [initState]) (by norm_num [initState]) (by norm_num)⟩


/-! ### C10, C4, C6 — progress division, cutoff clamp, smoothing -/


/-- C10: `updateEnvelope` divides elapsed time by the phase duration with
no zero guard; under the precondition that the duration is strictly
positive (every triggered phase in normal use), the division is
well-defined on every call with a non-idle phase, and before the phase end
the envelope cutoff (and the propagated target cutoff) equals the linear
interpolation at progress = elapsed/duration.  The zero-duration case
(e.g. `attackTime = 0` advanced at the trigger time, giving `0/0`) is an
IEEE-NaN artefact that the rational model does not represent. -/
theorem progress_division_wellDefined (tf : ℚ → ℚ) (t : ℚ) (s : KernelState)
    (h0 : s.envelopePhase ≠ 0) (hd : 0 < s.envelopeDuration)
    (hlt : t - s.envelopeStartTime < s.envelopeDuration) :
    (updateEnvelope tf t s).envelopeCutoff =
      s.envelopeStartCutoff + (s.envelopeTargetCutoff - s.envelopeStartCutoff) *
        ((t - s.envelopeStartTime) / s.envelopeDuration) ∧
    (updateEnvelope tf t s).targetCutoff =
      s.envelopeStartCutoff + (s.envelopeTargetCutoff - s.envelopeStartCutoff) *
        ((t - s.envelopeStartTime) / s.envelopeDuration) := by
  rw [updateEnvelope_interp tf t s h0 ((div_lt_one hd).2 hlt)]
  exact ⟨rfl, rfl⟩

/-- Witness for C10 at an attack state with duration 1/10 advanced at
time 1/20. -/
theorem progress_division_wellDefined_witness :
    ((setEnvelopeAttack 200 2000 (1/10) initState).envelopePhase ≠ 0 ∧
      0 < (setEnvelopeAttack 200 2000 (1/10) initState).envelopeDuration ∧
      (1/20 : ℚ) - (setEnvelopeAttack 200 2000 (1/10) initState).envelopeStartTime <
        (setEnvelopeAttack 200 2000 (1/10) initState).envelopeDuration) ∧
    ((updateEnvelope tfZero (1/20) (setEnvelopeAttack 200 2000 (1/10) initState)).envelopeCutoff =
        (setEnvelopeAttack 200 2000 (1/10) initState).envelopeStartCutoff +
          ((setEnvelopeAttack 200 2000 (1/10) initState).envelopeTargetCutoff -
            (setEnvelopeAttack 200 2000 (1/10) initState).envelopeStartCutoff) *
          (((1/20 : ℚ) - (setEnvelopeAttack 200 2000 (1/10) initState).envelopeStartTime) /
            (setEnvelopeAttack 200 2000 (1/10) initState).envelopeDuration) ∧
      (updateEnvelope tfZero (1/20) (setEnvelopeAttack 200 2000 (1/10) initState)).targetCutoff =
        (setEnvelopeAttack 200 2000 (1/10) initState).envelopeStartCutoff +
          ((setEnvelopeAttack 200 2000 (1/10) initState).envelopeTargetCutoff -
            (setEnvelopeAttack 200 2000 (1/10) initState).envelopeStartCutoff) *
          (((1/20 : ℚ) - (setEnvelopeAttack 200 2000 (1/10) initState).envelopeStartTime) /
            (setEnvelopeAttack 200 2000 (1/10) initState).envelopeDuration)) :=
  ⟨⟨one_ne_zero, by norm_num [setEnvelopeAttack, initState],
      by norm_num [setEnvelopeAttack, initState]⟩,
    progress_division_wellDefined tfZero (1/20) _ one_ne_zero
      (by norm_num [setEnvelopeAttack, initState])
      (by norm_num [setEnvelopeAttack, initState])⟩

/-- C4: for every requested cutoff value, the normalised frequency fc
actually used by `updateFilterCoefficients` — and hence every derived
coefficient `tune`, `acr`, `resQuad` — is the clamped
`min(cutoff/SAMPLE_RATE, 0.45)`, which never exceeds 0.45; the clamp is
applied unconditionally on every coefficient recomputation. -/
theorem cutoff_clamp_invariant (tf : ℚ → ℚ) (s : KernelState) :
    clampedFc s.cutoff ≤ 45/100 ∧
    (updateFilterCoefficients tf s).acr = acrPoly (clampedFc s.cutoff) ∧
    (updateFilterCoefficients tf s).tune = tf (clampedFc s.cutoff) ∧
    (updateFilterCoefficients tf s).resQuad =
      4 * s.resonance * acrPoly (clampedFc s.cutoff) :=
  ⟨min_le_right _ _, rfl, rfl, rfl⟩

/-- The per-sample loop of `filter()` touches only the filter, delay,
saturator-cache and DC-blocker state: the control parameters and derived
coefficients are unchanged by it. -/
theorem processSamples_control_frame (sat : ℚ → ℚ) (xs : List ℚ)
    (s : KernelState) :
    (processSamples sat xs s).1.cutoff = s.cutoff ∧
    (processSamples sat xs s).1.resonance = s.resonance ∧
    (processSamples sat xs s).1.tune = s.tune ∧
    (processSamples sat xs s).1.acr = s.acr ∧
    (processSamples sat xs s).1.resQuad = s.resQuad := by
  induction xs generalizing s with
  | nil => exact ⟨rfl, rfl, rfl, rfl, rfl⟩
  | cons x xs ih =>
    obtain ⟨h1, h2, h3, h4, h5⟩ := ih (processSample sat x s).1
    exact ⟨h1.trans rfl, h2.trans rfl, h3.trans rfl, h4.trans rfl, h5.trans rfl⟩

/-- C6: one smoothing step per block with the fixed fraction 0.1 moves the
live value toward the target without overshooting (it stays between the
old live value and the target), and the distance to the target shrinks by
exactly the factor (1 - 0.1); inside `filter()` this step is applied once
per block to the live cutoff and resonance, and the per-sample loop leaves
them untouched. -/
theorem smoothing_no_overshoot_geometric (c t : ℚ) (tf sat : ℚ → ℚ)
    (xs : List ℚ) (s : KernelState) :
    min c t ≤ smoothParameter c t (1/10) ∧
    smoothParameter c t (1/10) ≤ max c t ∧
    t - smoothParameter c t (1/10) = (1 - 1/10) * (t - c) ∧
    (filter tf sat xs s).1.cutoff =
      smoothParameter s.cutoff s.targetCutoff s.cutoffSmoothing ∧
    (filter tf sat xs s).1.resonance =
      smoothParameter s.resonance s.targetResonance s.resonanceSmoothing := by
  refine ⟨?_, ?_, by unfold smoothParameter; ring, ?_, ?_⟩
  · rcases le_total c t with h | h
    · rw [min_eq_left h]; unfold smoothParameter; nlinarith
    · rw [min_eq_right h]; unfold smoothParameter; nlinarith
  · rcases le_total c t with h | h
    · rw [max_eq_right h]; unfold smoothParameter; nlinarith
    · rw [max_eq_left h]; unfold smoothParameter; nlinarith
  · exact ((processSamples_control_frame sat xs _).1).trans rfl
  · exact ((processSamples_control_frame sat xs _).2.1).trans rfl

/-! ### C9 — coefficients depend only on live values -/


/-- The invariant relating the stored coefficients to the live (smoothed)
cutoff and resonance; `updateFilterCoefficients` establishes it, and every
reachable state outside the body of `filter` satisfies it. -/
def coeffsConsistent (tf : ℚ → ℚ) (s : KernelState) : Prop :=
  s.tune = tf (clampedFc s.cutoff) ∧
  s.acr = acrPoly (clampedFc s.cutoff) ∧
  s.resQuad = 4 * s.resonance * acrPoly (clampedFc s.cutoff)

/-- Fallthrough of the phase dispatch in `updateEnvelope` for phase tags
outside 0–3 (unreachable in practice, but present in the C control flow). -/
theorem updateEnvelope_otherPhase (tf : ℚ → ℚ) (t : ℚ) (s : KernelState)
    (h0 : s.envelopePhase ≠ 0) (hp1 : s.envelopePhase ≠ 1)
    (hp2 : s.envelopePhase ≠ 2) (hp3 : s.envelopePhase ≠ 3)
    (hge : 1 ≤ (t - s.envelopeStartTime) / s.envelopeDuration) :
    updateEnvelope tf t s =
      applyEnvelopeCutoff tf 1 { s with currentTime := t } := by
  simp [updateEnvelope, h0, hp1, hp2, hp3, hge]

/-- On a coefficient-consistent state, `updateEnvelope` leaves `tune`,
`acr` and `resQuad` unchanged: it recomputes them (if at all) from the
unmodified live cutoff and resonance. -/
theorem updateEnvelope_preserves_coeffs (tf : ℚ → ℚ) (t : ℚ) (s : KernelState)
    (hcons : coeffsConsistent tf s) :
    (updateEnvelope tf t s).tune = s.tune ∧
    (updateEnvelope tf t s).acr = s.acr ∧
    (updateEnvelope tf t s).resQuad = s.resQuad := by
  obtain ⟨h1, h2, h3⟩ := hcons
  by_cases h0 : s.envelopePhase = 0
  · rw [updateEnvelope_phase0 tf t s h0]; exact ⟨rfl, rfl, rfl⟩
  by_cases hge : 1 ≤ (t - s.envelopeStartTime) / s.envelopeDuration
  · by_cases hp1 : s.envelopePhase = 1
    · rw [updateEnvelope_attackDone tf t s hp1 hge]
      exact ⟨h1.symm, h2.symm, h3.symm⟩
    by_cases hp2 : s.envelopePhase = 2
    · rw [updateEnvelope_decayDone tf t s hp2 hge]
      exact ⟨h1.symm, h2.symm, h3.symm⟩
    by_cases hp3 : s.envelopePhase = 3
    · rw [updateEnvelope_held tf t s hp3 hge]; exact ⟨rfl, rfl, rfl⟩
    · rw [updateEnvelope_otherPhase tf t s h0 hp1 hp2 hp3 hge]
      exact ⟨h1.symm, h2.symm, h3.symm⟩
  · rw [updateEnvelope_interp tf t s h0 (not_le.1 hge)]
    exact ⟨h1.symm, h2.symm, h3.symm⟩

/-- C9: the derived coefficients `tune`, `acr`, `resQuad` are a function
of the live (smoothed) cutoff and resonance only, never of the target
values (`updateFilterCoefficients` yields identical coefficients on any
two states agreeing on live cutoff and resonance); consequently, on any
state satisfying the coefficient-consistency invariant, `setCutoff`,
`setResonance` and `updateEnvelope` — which mutate only target and manual
values — leave all three coefficients unchanged.  They can change only
inside `filter()`, after the per-block smoothing step has advanced the
live values. -/
theorem coefficients_frame_effect (tf : ℚ → ℚ) (s s' : KernelState)
    (c r t : ℚ) (hcons : coeffsConsistent tf s) (hc : s'.cutoff = s.cutoff)
    (hr : s'.resonance = s.resonance) :
    ((setCutoff tf c s).tune = s.tune ∧ (setCutoff tf c s).acr = s.acr ∧
      (setCutoff tf c s).resQuad = s.resQuad) ∧
    ((setResonance tf r s).tune = s.tune ∧ (setResonance tf r s).acr = s.acr ∧
      (setResonance tf r s).resQuad = s.resQuad) ∧
    ((updateEnvelope tf t s).tune = s.tune ∧
      (updateEnvelope tf t s).acr = s.acr ∧
      (updateEnvelope tf t s).resQuad = s.resQuad) ∧
    ((updateFilterCoefficients tf s').tune = (updateFilterCoefficients tf s).tune ∧
      (updateFilterCoefficients tf s').acr = (updateFilterCoefficients tf s).acr ∧
      (updateFilterCoefficients tf s').resQuad =
        (updateFilterCoefficients tf s).resQuad) := by
  obtain ⟨h1, h2, h3⟩ := hcons
  refine ⟨?_, ⟨h1.symm, h2.symm, h3.symm⟩,
    updateEnvelope_preserves_coeffs tf t s ⟨h1, h2, h3⟩,
    by show tf (clampedFc s'.cutoff) = tf (clampedFc s.cutoff); rw [hc],
    by show acrPoly (clampedFc s'.cutoff) = acrPoly (clampedFc s.cutoff); rw [hc],
    by
      show 4 * s'.resonance * acrPoly (clampedFc s'.cutoff) =
        4 * s.resonance * acrPoly (clampedFc s.cutoff)
      rw [hc, hr]⟩
  by_cases ha : s.envelopeActive
  · simp [setCutoff, ha]
  · simp [setCutoff, ha, updateFilterCoefficients, h1, h2, h3]

/-- Witness for C9 on the coefficient-consistent state obtained by
recomputing coefficients on the fresh state, against a comparison state
with a different target cutoff. -/
theorem coefficients_frame_effect_witness :
    (coeffsConsistent tfZero (updateFilterCoefficients tfZero initState) ∧
      ({ initState with targetCutoff := 9999 } : KernelState).cutoff =
        (updateFilterCoefficients tfZero initState).cutoff ∧
      ({ initState with targetCutoff := 9999 } : KernelState).resonance =
        (updateFilterCoefficients tfZero initState).resonance) ∧
    (((setCutoff tfZero 500 (updateFilterCoefficients tfZero initState)).tune =
        (updateFilterCoefficients tfZero initState).tune ∧
      (setCutoff tfZero 500 (updateFilterCoefficients tfZero initState)).acr =
        (updateFilterCoefficients tfZero initState).acr ∧
      (setCutoff tfZero 500 (updateFilterCoefficients tfZero initState)).resQuad =
        (updateFilterCoefficients tfZero initState).resQuad) ∧
    ((setResonance tfZero 2 (updateFilterCoefficients tfZero initState)).tune =
        (updateFilterCoefficients tfZero initState).tune ∧
      (setResonance tfZero 2 (updateFilterCoefficients tfZero initState)).acr =
        (updateFilterCoefficients tfZero initState).acr ∧
      (setResonance tfZero 2 (updateFilterCoefficients tfZero initState)).resQuad =
        (updateFilterCoefficients tfZero initState).resQuad) ∧
    ((updateEnvelope tfZero 3 (updateFilterCoefficients tfZero initState)).tune =
        (updateFilterCoefficients tfZero initState).tune ∧
      (updateEnvelope tfZero 3 (updateFilterCoefficients tfZero initState)).acr =
        (updateFilterCoefficients tfZero initState).acr ∧
      (updateEnvelope tfZero 3 (updateFilterCoefficients tfZero initState)).resQuad =
        (updateFilterCoefficients tfZero initState).resQuad) ∧
    ((updateFilterCoefficients tfZero ({ initState with targetCutoff := 9999 } : KernelState)).tune =
        (updateFilterCoefficients tfZero (updateFilterCoefficients tfZero initState)).tune ∧
      (updateFilterCoefficients tfZero ({ initState with targetCutoff := 9999 } : KernelState)).acr =
        (updateFilterCoefficients tfZero (updateFilterCoefficients tfZero initState)).acr ∧
      (updateFilterCoefficients tfZero ({ initState with targetCutoff := 9999 } : KernelState)).resQuad =
        (updateFilterCoefficients tfZero (updateFilterCoefficients tfZero initState)).resQuad)) :=
  ⟨⟨⟨rfl, rfl, rfl⟩, rfl, rfl⟩,
    coefficients_frame_effect tfZero (updateFilterCoefficients tfZero initState)
      ({ initState with targetCutoff := 9999 } : KernelState) 500 2 3
      ⟨rfl, rfl, rfl⟩ rfl rfl⟩

/-! ### C2 — what init does and does not reset -/


/-- C2, counterexample.  The claim says `init()` resets all state and
parameters — including the DC-blocker state — to the fresh-instance
defaults.  Concretely, from a prior state equal to the fresh state except
`dcBlockOutput = 1`, `init()` leaves `dcBlockOutput` at 1, not the fresh
default 0 (the C `init` never touches `dcBlockInput`/`dcBlockOutput`). -/
theorem init_resets_all_cex :
    (init tfZero { initState with dcBlockOutput := 1 }).dcBlockOutput ≠
      initState.dcBlockOutput := by
  norm_num [init, setCutoff, setResonance, initState, updateFilterCoefficients,
    clampedFc, acrPoly, tfZero]

/-- C2, amended: for every prior state, `init()` zeroes the four stage
accumulators, the three saturator caches and the six delay slots, resets
the manual and envelope cutoffs to 1000, deactivates the envelope, resets
phase, time, sustain level, the smoothing constants and the target
resonance, and recomputes the coefficients; but it leaves the DC-blocker
state, the live (smoothed) cutoff and resonance, and the envelope
interpolation bookkeeping (start/target/start time/duration/decay time)
at their prior values, and when the envelope was active beforehand it also
leaves the target cutoff unchanged (`setCutoff(1000)` runs before
`envelopeActive` is cleared).  Hence `init()` followed by `filter()` on
silence does not in general reproduce a fresh instance's output. -/
theorem init_field_effects (tf : ℚ → ℚ) (s : KernelState) :
    (init tf s).stage0 = 0 ∧ (init tf s).stage1 = 0 ∧
    (init tf s).stage2 = 0 ∧ (init tf s).stage3 = 0 ∧
    (init tf s).stageTanh0 = 0 ∧ (init tf s).stageTanh1 = 0 ∧
    (init tf s).stageTanh2 = 0 ∧
    (init tf s).delay0 = 0 ∧ (init tf s).delay1 = 0 ∧ (init tf s).delay2 = 0 ∧
    (init tf s).delay3 = 0 ∧ (init tf s).delay4 = 0 ∧ (init tf s).delay5 = 0 ∧
    (init tf s).manualCutoff = 1000 ∧ (init tf s).envelopeCutoff = 1000 ∧
    (init tf s).envelopeActive = false ∧ (init tf s).envelopePhase = 0 ∧
    (init tf s).currentTime = 0 ∧ (init tf s).envelopeSustainLevel = 1/2 ∧
    (init tf s).cutoffSmoothing = 1/10 ∧ (init tf s).resonanceSmoothing = 1/10 ∧
    (init tf s).targetResonance = 1/10 ∧
    (init tf s).targetCutoff = (if s.envelopeActive then s.targetCutoff else 1000) ∧
    (init tf s).cutoff = s.cutoff ∧
    (init tf s).resonance = s.resonance ∧
    (init tf s).dcBlockInput = s.dcBlockInput ∧
    (init tf s).dcBlockOutput = s.dcBlockOutput ∧
    (init tf s).envelopeStartCutoff = s.envelopeStartCutoff ∧
    (init tf s).envelopeTargetCutoff = s.envelopeTargetCutoff ∧
    (init tf s).envelopeStartTime = s.envelopeStartTime ∧
    (init tf s).envelopeDuration = s.envelopeDuration ∧
    (init tf s).envelopeDecayTime = s.envelopeDecayTime ∧
    (init tf s).tune = tf (clampedFc s.cutoff) ∧
    (init tf s).acr = acrPoly (clampedFc s.cutoff) ∧
    (init tf s).resQuad = 4 * s.resonance * acrPoly (clampedFc s.cutoff) := by
  by_cases ha : s.envelopeActive <;>
    simp [init, setCutoff, setResonance, updateFilterCoefficients, ha]

/-- C5: for every input sample, `filter()` first applies the DC blocker,
then performs exactly two oversampling sub-steps on the same DC-blocked
value; in each sub-step the feedback input is
`dcBlockedSample - resQuad·delay[5]`, stages 0–3 are updated in order
using the cached saturator outputs `stageTanh[0..2]` (each freshly
overwritten value feeding the next stage, while stage 3 recomputes the
saturation of its own previous delay value instead of caching it), the
phase-compensation delay is updated as `delay[5] = (newStage3 + delay[4])/2`
then `delay[4] = newStage3`, and after both sub-steps the emitted output
sample equals `delay[5]`. -/
theorem ladder_block_structure (tf sat : ℚ → ℚ) (x d : ℚ) (u s : KernelState)
    (xs : List ℚ) :
    ((ladderStep sat d u).stage0 =
        u.delay0 + u.tune * (sat ((d - u.resQuad * u.delay5) * thermal) - u.stageTanh0) ∧
      (ladderStep sat d u).stageTanh0 = sat ((ladderStep sat d u).stage0 * thermal) ∧
      (ladderStep sat d u).stage1 =
        u.delay1 + u.tune * ((ladderStep sat d u).stageTanh0 - u.stageTanh1) ∧
      (ladderStep sat d u).stageTanh1 = sat ((ladderStep sat d u).stage1 * thermal) ∧
      (ladderStep sat d u).stage2 =
        u.delay2 + u.tune * ((ladderStep sat d u).stageTanh1 - u.stageTanh2) ∧
      (ladderStep sat d u).stageTanh2 = sat ((ladderStep sat d u).stage2 * thermal) ∧
      (ladderStep sat d u).stage3 =
        u.delay3 + u.tune * ((ladderStep sat d u).stageTanh2 - sat (u.delay3 * thermal)) ∧
      (ladderStep sat d u).delay0 = (ladderStep sat d u).stage0 ∧
      (ladderStep sat d u).delay1 = (ladderStep sat d u).stage1 ∧
      (ladderStep sat d u).delay2 = (ladderStep sat d u).stage2 ∧
      (ladderStep sat d u).delay3 = (ladderStep sat d u).stage3 ∧
      (ladderStep sat d u).delay5 = ((ladderStep sat d u).stage3 + u.delay4) * (1/2) ∧
      (ladderStep sat d u).delay4 = (ladderStep sat d u).stage3) ∧
    processSample sat x s =
      (ladderStep sat (x - s.dcBlockInput + dcBlockCoeff * s.dcBlockOutput)
        (ladderStep sat (x - s.dcBlockInput + dcBlockCoeff * s.dcBlockOutput)
          { s with dcBlockInput := x
                   dcBlockOutput := x - s.dcBlockInput + dcBlockCoeff * s.dcBlockOutput }),
       (ladderStep sat (x - s.dcBlockInput + dcBlockCoeff * s.dcBlockOutput)
        (ladderStep sat (x - s.dcBlockInput + dcBlockCoeff * s.dcBlockOutput)
          { s with dcBlockInput := x
                   dcBlockOutput := x - s.dcBlockInput + dcBlockCoeff * s.dcBlockOutput })).delay5) ∧
    (processSample sat x s).2 = (processSample sat x s).1.delay5 ∧
    processSamples sat (x :: xs) s =
      ((processSamples sat xs (processSample sat x s).1).1,
        (processSample sat x s).2 :: (processSamples sat xs (processSample sat x s).1).2) ∧
    filter tf sat xs s =
      processSamples sat xs (updateFilterCoefficients tf
        { s with cutoff := smoothParameter s.cutoff s.targetCutoff s.cutoffSmoothing
                 resonance := smoothParameter s.resonance s.targetResonance s.resonanceSmoothing }) :=
  ⟨⟨rfl, rfl, rfl, rfl, rfl, rfl, rfl, rfl, rfl, rfl, rfl, rfl, rfl⟩,
    rfl, rfl, rfl, rfl⟩

/-! ### C7 — the real-valued saturator -/


/-- Function `enhanced_tanh(float x)` (lines 215–243), over `ℝ` with the C
library `tanh` taken as the exact real `Real.tanh`. -/
noncomputable def enhanced_tanh (x : ℝ) : ℝ :=
  let basic_tanh := Real.tanh x
  let asymmetry : ℝ := if 0 < x then 1 else 98/100
  let abs_x := |x|
  let input_scale := abs_x / (1 + abs_x)
  let freq_scale := 1 / (1 + 2 * input_scale)
  let harmonic_boost := 1 + 15/1000 * input_scale * freq_scale
  let even_harmonic := 8/1000 * x * input_scale * freq_scale / (1 + abs_x)
  let third_harmonic := 6/1000 * x * input_scale * input_scale * freq_scale
  let intermod := 4/1000 * x * input_scale * freq_scale
  asymmetry * basic_tanh * harmonic_boost + even_harmonic + third_harmonic + intermod

/-- The exact transcendental fc ↦ tune map of `updateFilterCoefficients`
(line 184), abstracted as `tf` in the rational model. -/
noncomputable def tuneMap (fc : ℚ) : ℝ :=
  (1 - Real.exp (-((2 * (cPI : ℝ)) * ((fc : ℝ) * (1/2)) * ((fcrPoly fc : ℚ) : ℝ)))) /
    ((thermal : ℚ) : ℝ)

/-- Boundedness of the base saturation: `|tanh x| ≤ 1`. -/
theorem abs_tanh_le_one (x : ℝ) : |Real.tanh x| ≤ 1 := by
  have key : ∀ y : ℝ, Real.tanh y < 1 := fun y => by
    rw [Real.tanh_eq_sinh_div_cosh, div_lt_one (Real.cosh_pos y)]
    exact Real.sinh_lt_cosh y
  rw [abs_le]
  constructor
  · have h := key (-x)
    rw [Real.tanh_neg] at h
    linarith
  · exact (key x).le

/-- Bound for the additive harmonic terms: a term `c·x·w` with `c ≥ 0` and
`w ∈ [0, 1]` is at most `c·|x|` in magnitude. -/
theorem abs_term_le (c x w : ℝ) (hc : 0 ≤ c) (hw0 : 0 ≤ w) (hw1 : w ≤ 1) :
    |c * x * w| ≤ c * |x| := by
  rw [mul_assoc, abs_mul, abs_of_nonneg hc, abs_mul, abs_of_nonneg hw0]
  have h := mul_le_mul_of_nonneg_left (mul_le_of_le_one_right (abs_nonneg x) hw1) hc
  simpa using h

/-- C7: the saturation nonlinearity `enhanced_tanh` is a pure total
function with no failure modes: `enhanced_tanh 0 = 0` exactly (the
asymmetry factor is 0.98 at 0, but every summand vanishes), and for every
real input the output is finite with the explicit affine bound
`|enhanced_tanh x| ≤ 1.015 + 0.018·|x|`. -/
theorem saturator_total_and_zero :
    enhanced_tanh 0 = 0 ∧
    ∀ x : ℝ, |enhanced_tanh x| ≤ 1015/1000 + 18/1000 * |x| := by
  constructor
  · norm_num [enhanced_tanh, Real.tanh_zero]
  · intro x
    have ha : (0:ℝ) ≤ |x| := abs_nonneg x
    have h1a : (0:ℝ) < 1 + |x| := by linarith
    have his0 : 0 ≤ |x| / (1 + |x|) := div_nonneg ha h1a.le
    have his1 : |x| / (1 + |x|) ≤ 1 := by rw [div_le_one h1a]; linarith
    set i := |x| / (1 + |x|) with hi
    have hfs00 : (0:ℝ) < 1 + 2 * i := by linarith
    have hfs0 : 0 ≤ 1 / (1 + 2 * i) := by positivity
    have hfs1 : 1 / (1 + 2 * i) ≤ 1 := by rw [div_le_one hfs00]; linarith
    set f := 1 / (1 + 2 * i) with hf
    have hif0 : 0 ≤ i * f := mul_nonneg his0 hfs0
    have hif1 : i * f ≤ 1 := mul_le_one₀ his1 hfs0 hfs1
    have hiif0 : 0 ≤ i * i * f := mul_nonneg (mul_nonneg his0 his0) hfs0
    have hiif1 : i * i * f ≤ 1 :=
      mul_le_one₀ (mul_le_one₀ his1 his0 his1) hfs0 hfs1
    have hifg0 : 0 ≤ i * f / (1 + |x|) := div_nonneg hif0 h1a.le
    have hifg1 : i * f / (1 + |x|) ≤ 1 := by
      rw [div_le_one h1a]; linarith
    have hA0 : (0:ℝ) ≤ (if 0 < x then (1:ℝ) else 98/100) := by
      split_ifs <;> norm_num
    have hA1 : (if 0 < x then (1:ℝ) else 98/100) ≤ 1 := by
      split_ifs <;> norm_num
    have hboost0 : (0:ℝ) ≤ 1 + 15/1000 * i * f := by nlinarith
    have hboost1 : 1 + 15/1000 * i * f ≤ 1015/1000 := by nlinarith
    have hmain : |(if 0 < x then (1:ℝ) else 98/100) * Real.tanh x *
        (1 + 15/1000 * i * f)| ≤ 1015/1000 := by
      rw [abs_mul, abs_mul, abs_of_nonneg hA0, abs_of_nonneg hboost0]
      have hab : (if 0 < x then (1:ℝ) else 98/100) * |Real.tanh x| ≤ 1 :=
        mul_le_one₀ hA1 (abs_nonneg _) (abs_tanh_le_one x)
      have hfinal := mul_le_mul hab hboost1 hboost0 zero_le_one
      linarith
    have heven : |8/1000 * x * i * f / (1 + |x|)| ≤ 8/1000 * |x| := by
      have hrw : 8/1000 * x * i * f / (1 + |x|) =
          8/1000 * x * (i * f / (1 + |x|)) := by ring
      rw [hrw]
      exact abs_term_le (8/1000) x _ (by norm_num) hifg0 hifg1
    have hthird : |6/1000 * x * i * i * f| ≤ 6/1000 * |x| := by
      have hrw : 6/1000 * x * i * i * f = 6/1000 * x * (i * i * f) := by ring
      rw [hrw]
      exact abs_term_le (6/1000) x _ (by norm_num) hiif0 hiif1
    have hinter : |4/1000 * x * i * f| ≤ 4/1000 * |x| := by
      have hrw : 4/1000 * x * i * f = 4/1000 * x * (i * f) := by ring
      rw [hrw]
      exact abs_term_le (4/1000) x _ (by norm_num) hif0 hif1
    have hsplit : |enhanced_tanh x| ≤
        |(if 0 < x then (1:ℝ) else 98/100) * Real.tanh x * (1 + 15/1000 * i * f)| +
        |8/1000 * x * i * f / (1 + |x|)| + |6/1000 * x * i * i * f| +
        |4/1000 * x * i * f| := by
      show |(if 0 < x then (1:ℝ) else 98/100) * Real.tanh x * (1 + 15/1000 * i * f) +
        8/1000 * x * i * f / (1 + |x|) + 6/1000 * x * i * i * f +
        4/1000 * x * i * f| ≤ _
      exact (abs_add _ _).trans (add_le_add_right
        ((abs_add _ _).trans (add_le_add_right (abs_add _ _) _)) _)
    linarith


end Huov
